import Mathlib

/-!
Shallow embedding of the zhaws/zha entity adapter layer of this repository.

The modules embedded here are:
  * homeassistant/components/zhaws/__init__.py  (EntityClassRegistry, add_entities,
    add_entities_new_join)
  * homeassistant/components/zhaws/switch.py    (BaseSwitch, Switch)
  * homeassistant/components/zhaws/lock.py      (Lock)
  * homeassistant/components/zhaws/siren.py     (Siren)
  * homeassistant/components/zhaws/binary_sensor.py (BinarySensor)
  * homeassistant/components/zhaws/sensor.py    (Sensor)
  * homeassistant/components/zhaws/cover.py     (BaseCover)
  * homeassistant/components/zhaws/entity.py    (ZhaEntity)
  * homeassistant/components/zha/cover.py       (ZhaCover)
  * homeassistant/components/zha/core/cluster_handlers/closures.py
    (DoorLockClusterHandler)

Python exceptions are made explicit: a handler or command method returns the
adapter state reached so far together with an `Option String` naming the raised
exception (`none` when the call returns normally).  Dict indexing on an event
payload is a lookup in an optional field that raises `KeyError` when absent.
Commands that await a runtime acknowledgement take the acknowledgement as an
explicit argument (`CommandResponse` for the zhaws controller, `ZclStatus` for
the zha cluster handler) and, where a claim is about what the adapter sends to
the runtime, the issued runtime call is part of the function result.
-/

/-! ## Constants from homeassistant.const -/

def STATE_LOCKED : String := "locked"

def STATE_UNLOCKED : String := "unlocked"

def STATE_OPEN : String := "open"

def STATE_CLOSED : String := "closed"

def STATE_OPENING : String := "opening"

def STATE_CLOSING : String := "closing"

/-! ## Runtime acknowledgement types -/

/-- zhaws.client.model.commands.CommandResponse: only the `success` field is
read by the adapters. -/
structure CommandResponse where
  success : Bool
deriving Repr, DecidableEq

/-- zigpy.zcl.foundation.Status as used by zha/cover.py: the adapters compare
the command result against Status.SUCCESS only. -/
inductive ZclStatus where
  | SUCCESS
  | FAILURE
deriving Repr, DecidableEq

/-! ## Descriptor / device model (zhaws.client.model.types) -/

/-- The platform-specific current-state snapshot carried by a switch-shaped
descriptor: `{state: bool}`. `none` models a descriptor that carries no
initial state snapshot. -/
structure StateSnapshot where
  state : Bool
deriving Repr, DecidableEq

/-- An external platform-entity descriptor as read by the adapters and by the
dispatch logic: platform tag, class-name string, unique id, name, and the
optional current-state snapshot. -/
structure PlatformEntityModel where
  name : String
  unique_id : String
  platform : String
  class_name : String
  state : Option StateSnapshot
deriving Repr, DecidableEq

/-- DeviceProxy.device_model as consumed by add_entities: the ieee address and
the declared entity descriptors (dict values, in insertion order). -/
structure DeviceDispatchModel where
  ieee : String
  entities : List PlatformEntityModel
deriving Repr, DecidableEq

/-- GroupProxy.group_model as consumed by add_entities. -/
structure GroupDispatchModel where
  id : Int
  entities : List PlatformEntityModel
deriving Repr, DecidableEq

/-- zhaws.client.model.events.DeviceFullyInitializedEvent: the fields read by
add_entities_new_join. -/
structure DeviceFullyInitializedEvent where
  new_join : Bool
  device : DeviceDispatchModel
deriving Repr, DecidableEq

/-! ## Python dict primitives

The registry is a dict of dicts keyed by strings; we embed dicts as
association lists with Python lookup (KeyError when the key is absent is
surfaced by the caller) and last-write-wins insertion. -/

def dict_get {α : Type} (d : List (String × α)) (k : String) : Option α :=
  (d.find? (fun p => p.fst = k)).map Prod.snd

def dict_set {α : Type} (d : List (String × α)) (k : String) (v : α) : List (String × α) :=
  match d with
  | [] => [(k, v)]
  | (k0, v0) :: rest => if k0 = k then (k, v) :: rest else (k0, v0) :: dict_set rest k v

/-! ## EntityClassRegistry (zhaws/__init__.py lines 58-79)

The registered value `entity_class` is identified by its `__name__`; the
registry therefore maps platform to a dict from class-name string to the
registered class, which we represent by its canonical name string. -/

def Registry : Type := List (String × List (String × String))

/-- EntityClassRegistry.register: create the platform table on first use, bind
the class under its own name, then bind every alternate class name to the same
class. -/
def EntityClassRegistry.register (reg : Registry) (platform : String)
    (entity_class : String) (alternate_class_names : List String) : Registry :=
  let table := (dict_get reg platform).getD []
  let table := dict_set table entity_class entity_class
  let table := alternate_class_names.foldl (fun t n => dict_set t n entity_class) table
  dict_set reg platform table

/-- The double dict lookup `ENTITY_CLASS_REGISTRY[platform][class_name]` as an
optional value; the code performs it bare, so `none` means a raised KeyError. -/
def EntityClassRegistry.lookup (reg : Registry) (platform : String)
    (class_name : String) : Option String :=
  (dict_get reg platform).bind (fun t => dict_get t class_name)

/-! ## Constructed adapters, as seen by the dispatch logic

`entity_class(device, entity)` constructs an adapter; for the dispatch-level
claims only the resolved class and the entity unique id are observable. -/

structure ConstructedAdapter where
  entity_class : String
  unique_id : String
deriving Repr, DecidableEq

/-! ## add_entities (zhaws/__init__.py lines 82-116)

The loop body appends one constructed adapter per descriptor whose platform
matches; the bare registry lookup raises KeyError on an unregistered class
name, which propagates out of add_entities before `async_add_entities` runs,
so an error yields no published batch at all. -/

def add_entities_loop (reg : Registry) (platform : String)
    (entities : List PlatformEntityModel) : Except String (List ConstructedAdapter) :=
  match entities with
  | [] => Except.ok []
  | e :: rest =>
    if e.platform = platform then
      match EntityClassRegistry.lookup reg platform e.class_name with
      | none => Except.error ("KeyError: " ++ e.class_name)
      | some cls =>
        (add_entities_loop reg platform rest).map
          (fun l => { entity_class := cls, unique_id := e.unique_id } :: l)
    else
      add_entities_loop reg platform rest

/-- The outer loops of add_entities, one entity list per device (or group),
appending each per-proxy batch into the accumulated list; a KeyError raised by
the inner loop propagates out immediately. -/
def add_entities_lists (reg : Registry) (platform : String) :
    List (List PlatformEntityModel) → Except String (List ConstructedAdapter)
  | [] => Except.ok []
  | es :: rest => do
    let l ← add_entities_loop reg platform es
    let r ← add_entities_lists reg platform rest
    pure (l ++ r)

def add_entities (reg : Registry) (platform : String)
    (devices : List DeviceDispatchModel) (groups : List GroupDispatchModel) :
    Except String (List ConstructedAdapter) := do
  let de ← add_entities_lists reg platform (devices.map (fun d => d.entities))
  let ge ← add_entities_lists reg platform (groups.map (fun g => g.entities))
  pure (de ++ ge)

/-! ## The host add-entities callback and add_entities_new_join -/

/-- Modelled from the spec: the host UI framework's "add entities" callback
(`AddEntitiesCallback`, part of homeassistant core, which is not under src/).
Per the spec, published adapters are keyed by entity unique-id and "a second
construction request for an already-present id is a no-op, not a duplicate". -/
def host_add_entities (host : List ConstructedAdapter)
    (new : List ConstructedAdapter) : List ConstructedAdapter :=
  new.foldl
    (fun acc a =>
      if acc.any (fun b => b.unique_id = a.unique_id) then acc else acc ++ [a])
    host

/-- add_entities_new_join (zhaws/__init__.py lines 169-179): on a new-join
device-fully-initialized event, dispatch the add-entities path for just that
device (and no groups); the published batch lands in the host framework via
the add-entities callback.  A KeyError raised inside add_entities propagates
out of the dispatched handler, leaving the host collection unchanged. -/
def add_entities_new_join (reg : Registry) (platform : String)
    (host : List ConstructedAdapter) (event : DeviceFullyInitializedEvent) :
    List ConstructedAdapter :=
  if event.new_join then
    match add_entities reg platform [event.device] [] with
    | Except.error _ => host
    | Except.ok l => host_add_entities host l
  else host

/-! ## Switch (zhaws/switch.py) -/

structure Switch where
  _platform_entity : PlatformEntityModel
  _state : Option Bool
deriving Repr, DecidableEq

/-- Switch construction `Switch(device, entity)`: BaseSwitch.__init__ sets
`self._state = None`, then BaseZhaEntity.__init__ copies the descriptor's
static metadata and sets `self._state = None` again.  The descriptor's
current-state snapshot is never read. -/
def Switch.mk_entity (platform_entity : PlatformEntityModel) : Switch :=
  { _platform_entity := platform_entity, _state := none }

/-- BaseSwitch.is_on: `if self._state is None: return False; return self._state`. -/
def Switch.is_on (s : Switch) : Bool :=
  match s._state with
  | none => false
  | some st => st

/-- The event payload read by Switch.platform_entity_state_changed:
`event.state["state"]`; an absent key models a malformed payload. -/
structure SwitchEventState where
  state : Option Bool
deriving Repr, DecidableEq

/-- Switch.platform_entity_state_changed: `self._state = bool(event.state["state"])`
then write state.  Indexing a missing key raises KeyError. -/
def Switch.platform_entity_state_changed (s : Switch) (event_state : SwitchEventState) :
    Switch × Option String :=
  match event_state.state with
  | none => (s, some ("KeyError: state"))
  | some v => ({ s with _state := some v }, none)

/-- Switch.async_turn_on: await the runtime acknowledgement; on
`not result.success` return (no state change, no exception); otherwise set
`self._state = True` and write state. -/
def Switch.async_turn_on (s : Switch) (result : CommandResponse) :
    Switch × Option String :=
  if !result.success then (s, none)
  else ({ s with _state := some true }, none)

/-- Switch.async_turn_off: symmetric to async_turn_on. -/
def Switch.async_turn_off (s : Switch) (result : CommandResponse) :
    Switch × Option String :=
  if !result.success then (s, none)
  else ({ s with _state := some false }, none)

/-! ## Lock (zhaws/lock.py) -/

structure Lock where
  _platform_entity : PlatformEntityModel
  _state : Option String
deriving Repr, DecidableEq

/-- Lock construction: `self._state = None` then BaseZhaEntity.__init__ (which
also leaves `_state` at None); the descriptor snapshot is not read. -/
def Lock.mk_entity (platform_entity : PlatformEntityModel) : Lock :=
  { _platform_entity := platform_entity, _state := none }

/-- Lock.is_locked: `if self._state is None: return False; return self._state == STATE_LOCKED`. -/
def Lock.is_locked (l : Lock) : Bool :=
  match l._state with
  | none => false
  | some st => st == STATE_LOCKED

/-- Lock.async_lock: on a failed acknowledgement return without touching
`_state`; on success set `_state = STATE_LOCKED`. -/
def Lock.async_lock (l : Lock) (result : CommandResponse) : Lock × Option String :=
  if !result.success then (l, none)
  else ({ l with _state := some STATE_LOCKED }, none)

/-- Lock.async_unlock: symmetric to async_lock. -/
def Lock.async_unlock (l : Lock) (result : CommandResponse) : Lock × Option String :=
  if !result.success then (l, none)
  else ({ l with _state := some STATE_UNLOCKED }, none)

/-- The calls the Lock adapter issues on `self._device.controller.locks`. -/
inductive LocksRuntimeCall where
  | set_user_lock_code (code_slot : Int) (user_code : String)
  | enable_user_lock_code (code_slot : Int)
  | disable_user_lock_code (code_slot : Int)
  | clear_user_lock_code (code_slot : Int)
deriving Repr, DecidableEq

/-- The slot argument carried by a locks runtime call. -/
def LocksRuntimeCall.slot : LocksRuntimeCall → Int
  | .set_user_lock_code s _ => s
  | .enable_user_lock_code s => s
  | .disable_user_lock_code s => s
  | .clear_user_lock_code s => s

/-- Lock.async_set_lock_user_code: awaits
`controller.locks.set_user_lock_code(entity, code_slot, user_code)` with the
caller's code_slot passed through unchanged. -/
def Lock.async_set_lock_user_code (code_slot : Int) (user_code : String) :
    LocksRuntimeCall :=
  LocksRuntimeCall.set_user_lock_code code_slot user_code

/-- Lock.async_enable_lock_user_code: code_slot passed through unchanged. -/
def Lock.async_enable_lock_user_code (code_slot : Int) : LocksRuntimeCall :=
  LocksRuntimeCall.enable_user_lock_code code_slot

/-- Lock.async_disable_lock_user_code: code_slot passed through unchanged. -/
def Lock.async_disable_lock_user_code (code_slot : Int) : LocksRuntimeCall :=
  LocksRuntimeCall.disable_user_lock_code code_slot

/-- Lock.async_clear_lock_user_code: code_slot passed through unchanged. -/
def Lock.async_clear_lock_user_code (code_slot : Int) : LocksRuntimeCall :=
  LocksRuntimeCall.clear_user_lock_code code_slot

/-! ## DoorLockClusterHandler (zha/core/cluster_handlers/closures.py) -/

/-- The zigpy DoorLock cluster commands issued by the handler. -/
inductive DoorLockClusterCall where
  | set_pin_code (slot : Int) (user_code : String)
  | set_user_status (slot : Int) (enabled : Bool)
  | get_pin_code (slot : Int)
  | clear_pin_code (slot : Int)
deriving Repr, DecidableEq

/-- The slot argument carried by a DoorLock cluster command. -/
def DoorLockClusterCall.slot : DoorLockClusterCall → Int
  | .set_pin_code s _ => s
  | .set_user_status s _ => s
  | .get_pin_code s => s
  | .clear_pin_code s => s

/-- DoorLockClusterHandler.async_set_user_code: issues
`set_pin_code(code_slot - 1, Enabled, Unrestricted, user_code)` ("start code
slots at 1, Zigbee internals use 0"). -/
def DoorLockClusterHandler.async_set_user_code (code_slot : Int)
    (user_code : String) : DoorLockClusterCall :=
  DoorLockClusterCall.set_pin_code (code_slot - 1) user_code

/-- DoorLockClusterHandler.async_enable_user_code: `set_user_status(code_slot - 1, Enabled)`. -/
def DoorLockClusterHandler.async_enable_user_code (code_slot : Int) :
    DoorLockClusterCall :=
  DoorLockClusterCall.set_user_status (code_slot - 1) true

/-- DoorLockClusterHandler.async_disable_user_code: `set_user_status(code_slot - 1, Disabled)`. -/
def DoorLockClusterHandler.async_disable_user_code (code_slot : Int) :
    DoorLockClusterCall :=
  DoorLockClusterCall.set_user_status (code_slot - 1) false

/-- DoorLockClusterHandler.async_get_user_code: `get_pin_code(code_slot - 1)`. -/
def DoorLockClusterHandler.async_get_user_code (code_slot : Int) :
    DoorLockClusterCall :=
  DoorLockClusterCall.get_pin_code (code_slot - 1)

/-- DoorLockClusterHandler.async_clear_user_code: `clear_pin_code(code_slot - 1)`. -/
def DoorLockClusterHandler.async_clear_user_code (code_slot : Int) :
    DoorLockClusterCall :=
  DoorLockClusterCall.clear_pin_code (code_slot - 1)

/-! ## Siren (zhaws/siren.py) -/

structure Siren where
  _platform_entity : PlatformEntityModel
  _attr_is_on : Bool
deriving Repr, DecidableEq

/-- Siren construction: after super().__init__, `self._attr_is_on = False`. -/
def Siren.mk_entity (platform_entity : PlatformEntityModel) : Siren :=
  { _platform_entity := platform_entity, _attr_is_on := false }

/-- Siren.async_turn_on: on a failed acknowledgement return unchanged,
otherwise set `_attr_is_on = True`. -/
def Siren.async_turn_on (s : Siren) (result : CommandResponse) :
    Siren × Option String :=
  if !result.success then (s, none)
  else ({ s with _attr_is_on := true }, none)

/-- Siren.async_turn_off: symmetric to async_turn_on. -/
def Siren.async_turn_off (s : Siren) (result : CommandResponse) :
    Siren × Option String :=
  if !result.success then (s, none)
  else ({ s with _attr_is_on := false }, none)

/-! ## BinarySensor (zhaws/binary_sensor.py) -/

structure BinarySensor where
  _platform_entity : PlatformEntityModel
  _state : Option Bool
deriving Repr, DecidableEq

/-- BinarySensor construction: only BaseZhaEntity.__init__ runs, so
`self._state = None`; the descriptor snapshot is not read. -/
def BinarySensor.mk_entity (platform_entity : PlatformEntityModel) : BinarySensor :=
  { _platform_entity := platform_entity, _state := none }

/-- BinarySensor.is_on: `if self._state is None: return False; return self._state`. -/
def BinarySensor.is_on (b : BinarySensor) : Bool :=
  match b._state with
  | none => false
  | some st => st

/-! ## Sensor (zhaws/sensor.py) -/

structure Sensor where
  _platform_entity : PlatformEntityModel
  _state : Option Bool
deriving Repr, DecidableEq

/-- Sensor construction: `self._state = None`, then if the descriptor's
snapshot value has a plain scalar type it is copied into the cache
(`self._state = self._platform_entity.state.state`).  The snapshot field
modelled here is a bool, which is one of the accepted scalar types. -/
def Sensor.mk_entity (platform_entity : PlatformEntityModel) : Sensor :=
  { _platform_entity := platform_entity,
    _state :=
      match platform_entity.state with
      | none => none
      | some snap => some snap.state }

/-! ## BaseCover (zhaws/cover.py) -/

structure BaseCover where
  _platform_entity : PlatformEntityModel
  _current_position : Option Int
  _state : Option String
deriving Repr, DecidableEq

/-- BaseCover construction: super().__init__ then `self._current_position = None`
and `self._state = None`. -/
def BaseCover.mk_entity (platform_entity : PlatformEntityModel) : BaseCover :=
  { _platform_entity := platform_entity, _current_position := none, _state := none }

/-- BaseCover.current_cover_position: returns the cached `_current_position`. -/
def BaseCover.current_cover_position (c : BaseCover) : Option Int :=
  c._current_position

/-- The event payload read by BaseCover.platform_entity_state_changed:
`event.state["current_position"]` and `event.state["is_closed"]`. -/
structure CoverEventState where
  current_position : Option Int
  is_closed : Option Bool
deriving Repr, DecidableEq

/-- BaseCover.platform_entity_state_changed: assigns
`self._current_position = event.state["current_position"]` and then
`self._state = STATE_CLOSED if event.state["is_closed"] else STATE_OPEN`.
Each dict index raises KeyError when the key is missing; an assignment made
before the raise is kept, matching Python execution order. -/
def BaseCover.platform_entity_state_changed (c : BaseCover)
    (event_state : CoverEventState) : BaseCover × Option String :=
  match event_state.current_position with
  | none => (c, some ("KeyError: current_position"))
  | some pos =>
    let c1 := { c with _current_position := some pos }
    match event_state.is_closed with
    | none => (c1, some ("KeyError: is_closed"))
    | some b =>
      ({ c1 with _state := some (if b then STATE_CLOSED else STATE_OPEN) }, none)

/-- The calls the cover adapter issues on `self._device.controller.covers`. -/
inductive CoversRuntimeCall where
  | open_cover
  | close_cover
  | stop_cover
  | set_cover_position (position : Int)
deriving Repr, DecidableEq

/-- The runtime call issued by BaseCover.async_set_cover_position:
`covers.set_cover_position(entity, new_pos)` with the host-convention position
passed through unchanged. -/
def BaseCover.async_set_cover_position_call (new_pos : Int) : CoversRuntimeCall :=
  CoversRuntimeCall.set_cover_position new_pos

/-- BaseCover.async_open_cover: on a failed acknowledgement return unchanged
(no exception), otherwise set `_state = STATE_OPENING`. -/
def BaseCover.async_open_cover (c : BaseCover) (result : CommandResponse) :
    BaseCover × Option String :=
  if !result.success then (c, none)
  else ({ c with _state := some STATE_OPENING }, none)

/-- BaseCover.async_close_cover: symmetric to async_open_cover. -/
def BaseCover.async_close_cover (c : BaseCover) (result : CommandResponse) :
    BaseCover × Option String :=
  if !result.success then (c, none)
  else ({ c with _state := some STATE_CLOSING }, none)

/-! ## ZhaCover (zha/cover.py) -/

structure ZhaCover where
  inverted : Bool
  _current_position_lift_percentage : Option Int
  _current_position_tilt_percentage : Option Int
  _state : Option String
deriving Repr, DecidableEq

/-- ZhaCover._determine_state: sets `_state` from the cached (already
host-flipped) lift percentage; a None position matches no branch because in
Python `None == 0` and `None == 100` are False. -/
def ZhaCover._determine_state (c : ZhaCover) : ZhaCover :=
  if c.inverted ∧ c._current_position_lift_percentage = some 0 then
    { c with _state := some STATE_OPEN }
  else if c.inverted ∧ c._current_position_lift_percentage = some 100 then
    { c with _state := some STATE_CLOSED }
  else if c._current_position_lift_percentage = some 100 then
    { c with _state := some STATE_OPEN }
  else if c._current_position_lift_percentage = some 0 then
    { c with _state := some STATE_CLOSED }
  else c

/-- ZhaCover.current_cover_position: returns the cached lift percentage. -/
def ZhaCover.current_cover_position (c : ZhaCover) : Option Int :=
  c._current_position_lift_percentage

/-- ZhaCover.async_set_position: the attribute-updated handler; flips the
reported ZCL value to the host convention (`100 - value`) for the lift or tilt
attribute, then re-derives `_state`. -/
def ZhaCover.async_set_position (c : ZhaCover) (attr_name : String) (value : Int) :
    ZhaCover :=
  let c1 :=
    if attr_name = ("current_position_lift_percentage") then
      { c with _current_position_lift_percentage := some (100 - value) }
    else if attr_name = ("current_position_tilt_percentage") then
      { c with _current_position_tilt_percentage := some (100 - value) }
    else c
  ZhaCover._determine_state c1

/-- Result of ZhaCover.async_set_cover_position: the lift percentage sent to
`go_to_lift_percentage` (always computed, the command is awaited before the
result is inspected), the adapter state afterwards, and the raised exception
if any (HomeAssistantError on a non-success status; in Python a TypeError
would follow a success acknowledgement when the cached position is None,
because `new_pos < None` is not comparable). -/
structure ZhaCoverSetPositionResult where
  call_lift_percentage : Int
  cover : ZhaCover
  error : Option String
deriving Repr, DecidableEq

/-- ZhaCover.async_set_cover_position: sends `go_to_lift_percentage(100 - new_pos)`;
raises HomeAssistantError unless the status is SUCCESS; on success sets
`_state` to closing or opening by comparing against the cached position. -/
def ZhaCover.async_set_cover_position (c : ZhaCover) (new_pos : Int)
    (status : ZclStatus) : ZhaCoverSetPositionResult :=
  let sent := 100 - new_pos
  if status = ZclStatus.SUCCESS then
    match c._current_position_lift_percentage with
    | none =>
      { call_lift_percentage := sent, cover := c,
        error := some ("TypeError: comparison with None") }
    | some cur =>
      { call_lift_percentage := sent,
        cover :=
          { c with _state := some (if new_pos < cur then STATE_CLOSING else STATE_OPENING) },
        error := none }
  else
    { call_lift_percentage := sent, cover := c,
      error := some ("HomeAssistantError: Failed to set cover position") }

/-- ZhaCover.async_open_cover: raises HomeAssistantError unless the status is
SUCCESS; on success sets `_state = STATE_OPENING`. -/
def ZhaCover.async_open_cover (c : ZhaCover) (status : ZclStatus) :
    ZhaCover × Option String :=
  if status = ZclStatus.SUCCESS then
    ({ c with _state := some STATE_OPENING }, none)
  else (c, some ("HomeAssistantError: Failed to open cover"))

/-! ## ZhaEntity.available (zhaws/entity.py lines 137-142) -/

/-- The device model fields visible to a non-group zhaws entity, including the
availability the runtime reports for the backing device. -/
structure DeviceModelRec where
  ieee : String
  available : Bool
deriving Repr, DecidableEq

/-- A non-group zhaws entity as relevant to its `available` property: the
backing device and the entity unique id. -/
structure ZhaEntityRec where
  _device : DeviceModelRec
  _unique_id : String
deriving Repr, DecidableEq

/-- ZhaEntity.available: `return True` (the commented-out reading of
`self._device.device.available` is not executed). -/
def ZhaEntityRec.available (_e : ZhaEntityRec) : Bool := true

/-! ## Dispatch helper predicates and concrete fixtures -/

/-- Whether the registry resolves a descriptor's class name for a platform
(both dict lookups succeed). -/
def resolvable (reg : Registry) (platform : String) (e : PlatformEntityModel) : Bool :=
  (EntityClassRegistry.lookup reg platform e.class_name).isSome

/-- The number of descriptors in an entity list whose platform tag matches. -/
def matching_count (platform : String) (es : List PlatformEntityModel) : Nat :=
  (es.filter (fun e => e.platform = platform)).length

/-- Whether an adapter with the given unique id is present in the host list. -/
def has_uid (l : List ConstructedAdapter) (u : String) : Bool :=
  l.any (fun b => b.unique_id = u)

/-- The number of adapters with the given unique id in the host list. -/
def uid_count (l : List ConstructedAdapter) (u : String) : Nat :=
  (l.filter (fun b => b.unique_id = u)).length

def sample_switch_descriptor : PlatformEntityModel :=
  { name := "plug", unique_id := "00:0d:6f:00:0a:90:69:e7-1-6",
    platform := "switch", class_name := "Switch", state := none }

def c2_cover : ZhaCover :=
  { inverted := false, _current_position_lift_percentage := some 0,
    _current_position_tilt_percentage := none, _state := some STATE_CLOSED }

def c2_base_cover : BaseCover :=
  BaseCover.mk_entity sample_switch_descriptor

def c4_switch : Switch := Switch.mk_entity sample_switch_descriptor

def c4_lock : Lock := Lock.mk_entity sample_switch_descriptor

def c4_siren : Siren := Siren.mk_entity sample_switch_descriptor

def c4_base_cover : BaseCover := BaseCover.mk_entity sample_switch_descriptor

def c3_registry : Registry :=
  EntityClassRegistry.register [] ("switch") ("Switch") []

def c3_bad_entity : PlatformEntityModel :=
  { name := "mystery", unique_id := "u-bad", platform := "switch",
    class_name := "MysterySwitch", state := none }

def c3_good_entity : PlatformEntityModel :=
  { name := "plug", unique_id := "u-good", platform := "switch",
    class_name := "Switch", state := none }

def c3_device : DeviceDispatchModel :=
  { ieee := "00:0d:6f:00:0a:90:69:e7", entities := [c3_bad_entity, c3_good_entity] }

def c3_good_device : DeviceDispatchModel :=
  { ieee := "00:0d:6f:00:0a:90:69:e8", entities := [c3_good_entity] }

def c8_event : DeviceFullyInitializedEvent :=
  { new_join := true, device := c3_good_device }

def c6_descriptor : PlatformEntityModel :=
  { name := "switch", unique_id := "00:0d:6f:00:0a:90:69:e7-1-6",
    platform := "switch", class_name := "Switch",
    state := some { state := true } }

def c7_descriptor : PlatformEntityModel :=
  { name := "no-snapshot", unique_id := "00:0d:6f:00:0a:90:69:e7-1-5",
    platform := "switch", class_name := "Switch", state := none }

def c9_cover : BaseCover :=
  { _platform_entity := sample_switch_descriptor,
    _current_position := some 40, _state := some STATE_OPEN }

/-! ## Lemmas about the dispatch loop -/

theorem add_entities_loop_ok (reg : Registry) (platform : String)
    (es : List PlatformEntityModel)
    (h : ∀ e ∈ es, e.platform = platform → resolvable reg platform e = true) :
    ∃ l, add_entities_loop reg platform es = Except.ok l ∧
      l.length = matching_count platform es := by
  induction es with
  | nil => exact ⟨[], rfl, rfl⟩
  | cons e rest ih =>
    have hrest : ∀ x ∈ rest, x.platform = platform → resolvable reg platform x = true :=
      fun x hx => h x (List.mem_cons_of_mem _ hx)
    obtain ⟨l, hl, hlen⟩ := ih hrest
    by_cases hp : e.platform = platform
    · have hres := h e (List.mem_cons_self _ _) hp
      rw [resolvable, Option.isSome_iff_exists] at hres
      obtain ⟨cls, hcls⟩ := hres
      refine ⟨{ entity_class := cls, unique_id := e.unique_id } :: l, ?_, ?_⟩
      · simp [add_entities_loop, hp, hcls, hl, Except.map]
      · simp [matching_count, List.filter_cons, hp]
        rw [matching_count] at hlen
        omega
    · refine ⟨l, ?_, ?_⟩
      · simp [add_entities_loop, hp, hl]
      · simp [matching_count, List.filter_cons, hp]
        rw [matching_count] at hlen
        omega

theorem add_entities_loop_err (reg : Registry) (platform : String)
    (es : List PlatformEntityModel)
    (h : ∃ e ∈ es, e.platform = platform ∧ resolvable reg platform e = false) :
    ∃ msg, add_entities_loop reg platform es = Except.error msg := by
  induction es with
  | nil => simp at h
  | cons e rest ih =>
    obtain ⟨x, hx, hxp, hxr⟩ := h
    rcases List.mem_cons.mp hx with rfl | hx
    · cases hcls : EntityClassRegistry.lookup reg platform x.class_name with
      | none =>
        exact ⟨"KeyError: " ++ x.class_name, by simp [add_entities_loop, hxp, hcls]⟩
      | some cls =>
        rw [resolvable, hcls] at hxr
        simp at hxr
    · obtain ⟨msg, hmsg⟩ := ih ⟨x, hx, hxp, hxr⟩
      by_cases hp : e.platform = platform
      · cases hcls : EntityClassRegistry.lookup reg platform e.class_name with
        | none =>
          exact ⟨"KeyError: " ++ e.class_name, by simp [add_entities_loop, hp, hcls]⟩
        | some cls =>
          exact ⟨msg, by simp [add_entities_loop, hp, hcls, hmsg, Except.map]⟩
      · exact ⟨msg, by simp [add_entities_loop, hp, hmsg]⟩

theorem add_entities_lists_ok (reg : Registry) (platform : String)
    (ls : List (List PlatformEntityModel))
    (h : ∀ es ∈ ls, ∀ e ∈ es, e.platform = platform → resolvable reg platform e = true) :
    ∃ l, add_entities_lists reg platform ls = Except.ok l ∧
      l.length = (ls.map (matching_count platform)).sum := by
  induction ls with
  | nil => exact ⟨[], rfl, rfl⟩
  | cons es rest ih =>
    obtain ⟨l1, hl1, hlen1⟩ :=
      add_entities_loop_ok reg platform es (h es (List.mem_cons_self _ _))
    obtain ⟨l2, hl2, hlen2⟩ := ih (fun x hx => h x (List.mem_cons_of_mem _ hx))
    refine ⟨l1 ++ l2, ?_, ?_⟩
    · simp only [add_entities_lists, hl1, hl2]
      rfl
    · simp [hlen1, hlen2]

theorem add_entities_lists_err (reg : Registry) (platform : String)
    (ls : List (List PlatformEntityModel))
    (h : ∃ es ∈ ls, ∃ e ∈ es, e.platform = platform ∧ resolvable reg platform e = false) :
    ∃ msg, add_entities_lists reg platform ls = Except.error msg := by
  induction ls with
  | nil => simp at h
  | cons es rest ih =>
    obtain ⟨xs, hxs, hex⟩ := h
    rcases List.mem_cons.mp hxs with rfl | hxs
    · obtain ⟨msg, hmsg⟩ := add_entities_loop_err reg platform xs hex
      exact ⟨msg, by simp only [add_entities_lists, hmsg]; rfl⟩
    · cases hfirst : add_entities_loop reg platform es with
      | error m =>
        exact ⟨m, by simp only [add_entities_lists, hfirst]; rfl⟩
      | ok l =>
        obtain ⟨msg, hmsg⟩ := ih ⟨xs, hxs, hex⟩
        exact ⟨msg, by simp only [add_entities_lists, hfirst, hmsg]; rfl⟩

/-! ## Lemmas about the host add-entities callback -/

theorem host_add_entities_cons (h : List ConstructedAdapter) (a : ConstructedAdapter)
    (l : List ConstructedAdapter) :
    host_add_entities h (a :: l)
      = host_add_entities (if has_uid h a.unique_id then h else h ++ [a]) l := rfl

theorem has_uid_host_add_mono (l : List ConstructedAdapter)
    (h : List ConstructedAdapter) (u : String) (hu : has_uid h u = true) :
    has_uid (host_add_entities h l) u = true := by
  induction l generalizing h with
  | nil => exact hu
  | cons a rest ih =>
    rw [host_add_entities_cons]
    apply ih
    by_cases hc : has_uid h a.unique_id = true
    · simp [hc, hu]
    · simp only [Bool.not_eq_true] at hc
      simp only [hc, if_false, Bool.false_eq_true]
      simp only [has_uid, List.any_append] at hu ⊢
      simp [hu]

theorem has_uid_host_add_of_mem (l : List ConstructedAdapter)
    (h : List ConstructedAdapter) (a : ConstructedAdapter) (ha : a ∈ l) :
    has_uid (host_add_entities h l) a.unique_id = true := by
  induction l generalizing h with
  | nil => cases ha
  | cons b rest ih =>
    rw [host_add_entities_cons]
    rcases List.mem_cons.mp ha with rfl | ha
    · apply has_uid_host_add_mono
      by_cases hc : has_uid h a.unique_id = true
      · simp [hc]
      · simp only [Bool.not_eq_true] at hc
        simp only [hc, if_false, Bool.false_eq_true]
        simp [has_uid, List.any_append]
    · exact ih _ ha

theorem host_add_entities_noop (l : List ConstructedAdapter)
    (h : List ConstructedAdapter)
    (hall : ∀ a ∈ l, has_uid h a.unique_id = true) :
    host_add_entities h l = h := by
  induction l generalizing h with
  | nil => rfl
  | cons a rest ih =>
    rw [host_add_entities_cons, if_pos (hall a (List.mem_cons_self _ _))]
    exact ih h (fun x hx => hall x (List.mem_cons_of_mem _ hx))

theorem host_add_entities_idem (h : List ConstructedAdapter)
    (l : List ConstructedAdapter) :
    host_add_entities (host_add_entities h l) l = host_add_entities h l :=
  host_add_entities_noop l _ (fun a ha => has_uid_host_add_of_mem l h a ha)

theorem uid_count_append (l1 l2 : List ConstructedAdapter) (u : String) :
    uid_count (l1 ++ l2) u = uid_count l1 u + uid_count l2 u := by
  simp [uid_count, List.filter_append]

theorem uid_count_zero_of_not_has (h : List ConstructedAdapter) (u : String)
    (hh : has_uid h u = false) : uid_count h u = 0 := by
  simp only [has_uid, List.any_eq_false, decide_eq_true_eq] at hh
  simp only [uid_count, List.length_eq_zero, List.filter_eq_nil_iff]
  intro b hb
  simpa using hh b hb

theorem uid_count_host_add_le_one (l : List ConstructedAdapter)
    (h : List ConstructedAdapter) (u : String) (hc : uid_count h u ≤ 1) :
    uid_count (host_add_entities h l) u ≤ 1 := by
  induction l generalizing h with
  | nil => exact hc
  | cons a rest ih =>
    rw [host_add_entities_cons]
    by_cases hu : has_uid h a.unique_id = true
    · rw [if_pos hu]
      exact ih h hc
    · simp only [Bool.not_eq_true] at hu
      simp only [hu, if_false, Bool.false_eq_true]
      apply ih
      rw [uid_count_append]
      by_cases hau : a.unique_id = u
      · have h0 : uid_count h u = 0 :=
          uid_count_zero_of_not_has h u (hau ▸ hu)
        have h1 : uid_count [a] u = 1 := by
          simp [uid_count, List.filter_cons, hau]
        omega
      · have h1 : uid_count [a] u = 0 := by
          simp [uid_count, List.filter_cons, hau]
        omega

/-! ## Claim theorems -/

/-- C1 counterexample: the claim says a call with slot = 1 reaches the runtime
with slot index 0; Lock.async_set_lock_user_code issues the call with slot 1,
unchanged. -/
theorem lock_user_code_slot_not_zero_indexed :
    (Lock.async_set_lock_user_code 1 ("1234")).slot = 1
  ∧ (Lock.async_set_lock_user_code 1 ("1234")).slot ≠ 0
  ∧ Lock.async_set_lock_user_code 1 ("1234")
      ≠ LocksRuntimeCall.set_user_lock_code 0 ("1234") :=
  ⟨rfl, by decide, by decide⟩

/-- C1 (amended): for every slot s >= 1, the zhaws lock adapter's four user-code
operations issue the underlying runtime call with the slot s unchanged
(one-indexed passthrough), consistently across set/enable/disable/clear; the
zero-index translation s - 1 is applied in the zha DoorLockClusterHandler
instead, consistently across its set/enable/disable/get/clear operations. -/
theorem lock_user_code_slot_passthrough (s : Int) (code : String) (_h : 1 ≤ s) :
    (Lock.async_set_lock_user_code s code).slot = s
  ∧ (Lock.async_enable_lock_user_code s).slot = s
  ∧ (Lock.async_disable_lock_user_code s).slot = s
  ∧ (Lock.async_clear_lock_user_code s).slot = s
  ∧ (DoorLockClusterHandler.async_set_user_code s code).slot = s - 1
  ∧ (DoorLockClusterHandler.async_enable_user_code s).slot = s - 1
  ∧ (DoorLockClusterHandler.async_disable_user_code s).slot = s - 1
  ∧ (DoorLockClusterHandler.async_get_user_code s).slot = s - 1
  ∧ (DoorLockClusterHandler.async_clear_user_code s).slot = s - 1 :=
  ⟨rfl, rfl, rfl, rfl, rfl, rfl, rfl, rfl, rfl⟩

/-- C1 witness: the passthrough theorem applied at slot 1. -/
theorem lock_user_code_slot_passthrough_witness :
    (1 : Int) ≤ 1 ∧ (Lock.async_set_lock_user_code 1 ("1234")).slot = 1 :=
  ⟨by decide, (lock_user_code_slot_passthrough 1 ("1234") (by decide)).1⟩

/-- C10: ZhaEntity.available returns True for every non-group zhaws entity
adapter, regardless of the availability the runtime reports for the backing
device. -/
theorem zha_entity_always_available (e : ZhaEntityRec) :
    ZhaEntityRec.available e = true
  ∧ ZhaEntityRec.available
      { e with _device := { e._device with available := false } } = true
  ∧ ZhaEntityRec.available
      { e with _device := { e._device with available := true } } = true :=
  ⟨rfl, rfl, rfl⟩

/-- C6: evaluating the code at the claim's input: constructing the Switch
adapter from a descriptor whose current-state snapshot is `{state: true}`
leaves the cached state at the None sentinel and reports is_on = False before
any event, because the Switch constructor never reads the snapshot; the Sensor
constructor of the same integration does consume the snapshot. -/
theorem switch_initial_state_snapshot_dropped :
    (Switch.mk_entity c6_descriptor)._state = none
  ∧ (Switch.mk_entity c6_descriptor).is_on = false
  ∧ (Sensor.mk_entity c6_descriptor)._state = some true :=
  ⟨rfl, rfl, rfl⟩

/-- C7 counterexample: an adapter constructed from a descriptor with no
initial snapshot keeps the None sentinel internally, but its read properties
render False (the "off"/"unlocked" rendering), not an unknown sentinel. -/
theorem no_initial_snapshot_renders_false_counterexample :
    (Switch.mk_entity c7_descriptor)._state = none
  ∧ (Switch.mk_entity c7_descriptor).is_on = false
  ∧ (Lock.mk_entity c7_descriptor)._state = none
  ∧ (Lock.mk_entity c7_descriptor).is_locked = false
  ∧ (BinarySensor.mk_entity c7_descriptor).is_on = false :=
  ⟨rfl, rfl, rfl, rfl, rfl⟩

/-- C7 (amended): for every adapter constructed from a descriptor carrying no
initial state snapshot, the internal cached state is the None sentinel until
the first change event, but the Bool-valued read properties (is_on, is_locked)
render that sentinel as False, i.e. as the off/unlocked default, not as an
explicit unknown value; only the Sensor's native value stays None. -/
theorem no_initial_snapshot_renders_false (pe : PlatformEntityModel)
    (h : pe.state = none) :
    (Switch.mk_entity pe)._state = none
  ∧ (Switch.mk_entity pe).is_on = false
  ∧ (Lock.mk_entity pe)._state = none
  ∧ (Lock.mk_entity pe).is_locked = false
  ∧ (BinarySensor.mk_entity pe)._state = none
  ∧ (BinarySensor.mk_entity pe).is_on = false
  ∧ (Sensor.mk_entity pe)._state = none := by
  refine ⟨rfl, rfl, rfl, rfl, rfl, rfl, ?_⟩
  simp [Sensor.mk_entity, h]

/-- C7 witness: the amended theorem applied to a concrete snapshot-free
descriptor. -/
theorem no_initial_snapshot_renders_false_witness :
    c7_descriptor.state = none
  ∧ (Switch.mk_entity c7_descriptor).is_on = false :=
  ⟨rfl, (no_initial_snapshot_renders_false c7_descriptor rfl).2.1⟩

/-- C4: when the runtime acknowledges a command with failure, every modelled
adapter command method leaves the adapter's cached state exactly at its
pre-call value, and the read properties observe no change; in particular a
failed turn_on with is_on = False leaves is_on = False. -/
theorem failed_command_leaves_cached_state_unchanged
    (s : Switch) (l : Lock) (si : Siren) (b : BaseCover) (c : ZhaCover)
    (r : CommandResponse) (st : ZclStatus) (new_pos : Int)
    (hr : r.success = false) (hst : st ≠ ZclStatus.SUCCESS) :
    (Switch.async_turn_on s r).fst = s
  ∧ (Switch.async_turn_on s r).fst.is_on = s.is_on
  ∧ (Switch.async_turn_off s r).fst = s
  ∧ (Lock.async_lock l r).fst = l
  ∧ (Lock.async_lock l r).fst.is_locked = l.is_locked
  ∧ (Lock.async_unlock l r).fst = l
  ∧ (Siren.async_turn_on si r).fst = si
  ∧ (Siren.async_turn_off si r).fst = si
  ∧ (BaseCover.async_open_cover b r).fst = b
  ∧ (BaseCover.async_close_cover b r).fst = b
  ∧ (ZhaCover.async_open_cover c st).fst = c
  ∧ (ZhaCover.async_set_cover_position c new_pos st).cover = c
  ∧ (s.is_on = false → (Switch.async_turn_on s r).fst.is_on = false) := by
  refine ⟨?_, ?_, ?_, ?_, ?_, ?_, ?_, ?_, ?_, ?_, ?_, ?_, ?_⟩ <;>
    simp [Switch.async_turn_on, Switch.async_turn_off, Lock.async_lock,
      Lock.async_unlock, Siren.async_turn_on, Siren.async_turn_off,
      BaseCover.async_open_cover, BaseCover.async_close_cover,
      ZhaCover.async_open_cover, ZhaCover.async_set_cover_position, hr, hst]

/-- C4 witness: a failed turn_on against a freshly constructed switch with
is_on = False leaves is_on = False. -/
theorem failed_command_leaves_cached_state_unchanged_witness :
    (CommandResponse.mk false).success = false
  ∧ ZclStatus.FAILURE ≠ ZclStatus.SUCCESS
  ∧ (Switch.async_turn_on c4_switch (CommandResponse.mk false)).fst.is_on = false :=
  ⟨rfl, by decide,
    (failed_command_leaves_cached_state_unchanged c4_switch c4_lock c4_siren
      c4_base_cover c2_cover (CommandResponse.mk false) ZclStatus.FAILURE 50 rfl
      (by decide)).2.2.2.2.2.2.2.2.2.2.2.2 rfl⟩

/-- C5 counterexample: the zhaws switch adapter swallows an explicit failure
acknowledgement: async_turn_on raises nothing and returns the same way on
failure as on success, so the immediate caller cannot distinguish a rejected
command from a successful one. -/
theorem command_rejection_silently_swallowed :
    (Switch.async_turn_on c4_switch (CommandResponse.mk false)).snd = none
  ∧ (Switch.async_turn_on c4_switch (CommandResponse.mk true)).snd = none :=
  ⟨rfl, rfl⟩

/-- C5 (amended): only the zha cover adapter surfaces an explicit failure
acknowledgement to its caller (it raises HomeAssistantError); the zhaws
adapters' command methods (switch, lock, siren, cover) return silently on
failure, indistinguishable from success to the immediate caller, although
cached state is still left unchanged. -/
theorem command_rejection_surfacing
    (s : Switch) (l : Lock) (si : Siren) (b : BaseCover) (c : ZhaCover)
    (r : CommandResponse) (st : ZclStatus) (new_pos : Int)
    (hst : st ≠ ZclStatus.SUCCESS) :
    (ZhaCover.async_open_cover c st).snd
      = some ("HomeAssistantError: Failed to open cover")
  ∧ (ZhaCover.async_set_cover_position c new_pos st).error
      = some ("HomeAssistantError: Failed to set cover position")
  ∧ (Switch.async_turn_on s r).snd = none
  ∧ (Switch.async_turn_off s r).snd = none
  ∧ (Lock.async_lock l r).snd = none
  ∧ (Lock.async_unlock l r).snd = none
  ∧ (Siren.async_turn_on si r).snd = none
  ∧ (Siren.async_turn_off si r).snd = none
  ∧ (BaseCover.async_open_cover b r).snd = none
  ∧ (BaseCover.async_close_cover b r).snd = none := by
  obtain ⟨succ⟩ := r
  refine ⟨?_, ?_, ?_, ?_, ?_, ?_, ?_, ?_, ?_, ?_⟩ <;>
    cases succ <;>
      simp [ZhaCover.async_open_cover, ZhaCover.async_set_cover_position, hst,
        Switch.async_turn_on, Switch.async_turn_off, Lock.async_lock,
        Lock.async_unlock, Siren.async_turn_on, Siren.async_turn_off,
        BaseCover.async_open_cover, BaseCover.async_close_cover]

/-- C5 witness: the surfacing theorem applied at a failed status and a failed
acknowledgement. -/
theorem command_rejection_surfacing_witness :
    ZclStatus.FAILURE ≠ ZclStatus.SUCCESS
  ∧ (ZhaCover.async_open_cover c2_cover ZclStatus.FAILURE).snd
      = some ("HomeAssistantError: Failed to open cover") :=
  ⟨by decide,
    (command_rejection_surfacing c4_switch c4_lock c4_siren c4_base_cover
      c2_cover (CommandResponse.mk false) ZclStatus.FAILURE 50 (by decide)).1⟩

/-- Re-deriving `_state` in ZhaCover._determine_state never changes the cached
lift percentage. -/
theorem determine_state_preserves_position (c : ZhaCover) :
    (ZhaCover._determine_state c).current_cover_position
      = c.current_cover_position := by
  rw [ZhaCover._determine_state]
  split
  · rfl
  · split
    · rfl
    · split
      · rfl
      · split <;> rfl

/-- C2: cover position round trip.  The zha adapter sends the inverted value
100 - P to go_to_lift_percentage and its attribute handler inverts the
runtime's echoed value 100 - P back, restoring current_cover_position = P
(one inversion per direction); the zhaws adapter passes P through unchanged on
the send path and its state handler stores the echoed host-convention value
unchanged, so the round trip also restores P exactly. -/
theorem cover_position_round_trip (c : ZhaCover) (b : BaseCover) (P : Int)
    (_h0 : 0 ≤ P) (_h1 : P ≤ 100) :
    (ZhaCover.async_set_cover_position c P ZclStatus.SUCCESS).call_lift_percentage
      = 100 - P
  ∧ (ZhaCover.async_set_position c ("current_position_lift_percentage")
      (100 - P)).current_cover_position = some P
  ∧ BaseCover.async_set_cover_position_call P
      = CoversRuntimeCall.set_cover_position P
  ∧ (BaseCover.platform_entity_state_changed b
      { current_position := some P, is_closed := some (P == 0) }).fst.current_cover_position
      = some P := by
  refine ⟨?_, ?_, rfl, ?_⟩
  · rw [ZhaCover.async_set_cover_position]
    cases c._current_position_lift_percentage <;> simp
  · rw [ZhaCover.async_set_position]
    simp only [if_pos rfl]
    rw [determine_state_preserves_position]
    simp [ZhaCover.current_cover_position]
  · simp [BaseCover.platform_entity_state_changed, BaseCover.current_cover_position]

/-- C2 witness: the round trip theorem applied at P = 50 on concrete covers. -/
theorem cover_position_round_trip_witness :
    ((0 : Int) ≤ 50 ∧ (50 : Int) ≤ 100)
  ∧ (ZhaCover.async_set_position c2_cover ("current_position_lift_percentage")
      50).current_cover_position = some 50 := by
  refine ⟨⟨by decide, by decide⟩, ?_⟩
  have h := (cover_position_round_trip c2_cover c2_base_cover 50 (by decide)
    (by decide)).2.1
  have h50 : (100 : Int) - 50 = 50 := by decide
  rw [h50] at h
  exact h

/-- C9 counterexample: delivering a cover state-changed event whose payload
is missing the current_position field makes the handler raise KeyError instead
of leaving the cached field unchanged and returning normally. -/
theorem state_changed_missing_field_raises :
    (BaseCover.platform_entity_state_changed c9_cover
      { current_position := none, is_closed := some true }).snd
      = some ("KeyError: current_position")
  ∧ (BaseCover.platform_entity_state_changed c9_cover
      { current_position := none, is_closed := some true }).fst = c9_cover :=
  ⟨rfl, rfl⟩

/-- C9 (amended): on a well-formed event (all expected fields present) the
state-changed handlers never raise; when an expected field is missing the
handler raises a KeyError — the cached fields read before the missing one are
the only ones updated, and on a missing first field the adapter is left fully
unchanged, but the exception is raised rather than the event being absorbed. -/
theorem state_changed_handler_behaviour (b : BaseCover) (ev : CoverEventState)
    (s : Switch) (evs : SwitchEventState) :
    (ev.current_position.isSome = true ∧ ev.is_closed.isSome = true →
      (BaseCover.platform_entity_state_changed b ev).snd = none)
  ∧ (ev.current_position = none →
      BaseCover.platform_entity_state_changed b ev
        = (b, some ("KeyError: current_position")))
  ∧ (evs.state.isSome = true →
      (Switch.platform_entity_state_changed s evs).snd = none)
  ∧ (evs.state = none →
      Switch.platform_entity_state_changed s evs
        = (s, some ("KeyError: state"))) := by
  refine ⟨?_, ?_, ?_, ?_⟩
  · rintro ⟨hpos, hclosed⟩
    rw [Option.isSome_iff_exists] at hpos hclosed
    obtain ⟨p, hp⟩ := hpos
    obtain ⟨cl, hcl⟩ := hclosed
    simp [BaseCover.platform_entity_state_changed, hp, hcl]
  · intro hpos
    simp [BaseCover.platform_entity_state_changed, hpos]
  · intro hst
    rw [Option.isSome_iff_exists] at hst
    obtain ⟨v, hv⟩ := hst
    simp [Switch.platform_entity_state_changed, hv]
  · intro hst
    simp [Switch.platform_entity_state_changed, hst]

/-- C9 witness: the handler theorem applied to a well-formed event and to an
event missing current_position. -/
theorem state_changed_handler_behaviour_witness :
    (BaseCover.platform_entity_state_changed c2_base_cover
      { current_position := some 25, is_closed := some false }).snd = none
  ∧ BaseCover.platform_entity_state_changed c2_base_cover
      { current_position := none, is_closed := some false }
      = (c2_base_cover, some ("KeyError: current_position")) :=
  ⟨(state_changed_handler_behaviour c2_base_cover
      { current_position := some 25, is_closed := some false }
      c4_switch { state := some true }).1 (by exact ⟨rfl, rfl⟩),
   (state_changed_handler_behaviour c2_base_cover
      { current_position := none, is_closed := some false }
      c4_switch { state := some true }).2.1 rfl⟩

/-- C3 counterexample: with a registry that only knows the class "Switch", a
batch holding one descriptor with unregistered class "MysterySwitch" followed
by a registered "Switch" descriptor makes add_entities raise KeyError: the
whole batch aborts and the registered descriptor is not published either,
although on its own it would be. -/
theorem unregistered_class_aborts_batch_counterexample :
    add_entities c3_registry ("switch") [c3_device] []
      = Except.error ("KeyError: MysterySwitch")
  ∧ add_entities c3_registry ("switch") [c3_good_device] []
      = Except.ok [{ entity_class := "Switch", unique_id := "u-good" }] :=
  ⟨rfl, rfl⟩

/-- C3 (amended): when every platform-matching descriptor in the batch has a
registered class name, add_entities publishes one constructed adapter per
matching descriptor; but a single descriptor whose class_name has no registry
entry makes the bare registry lookup raise KeyError, aborting the whole batch:
add_entities returns the error and publishes nothing, rather than logging and
skipping that one descriptor. -/
theorem unregistered_class_aborts_batch (reg : Registry) (platform : String)
    (devices : List DeviceDispatchModel) (groups : List GroupDispatchModel) :
    ((∀ d ∈ devices, ∀ e ∈ d.entities, e.platform = platform →
        resolvable reg platform e = true) →
     (∀ g ∈ groups, ∀ e ∈ g.entities, e.platform = platform →
        resolvable reg platform e = true) →
      ∃ l, add_entities reg platform devices groups = Except.ok l ∧
        l.length
          = (devices.map (fun d => matching_count platform d.entities)).sum
            + (groups.map (fun g => matching_count platform g.entities)).sum)
  ∧ (((∃ d ∈ devices, ∃ e ∈ d.entities, e.platform = platform ∧
        resolvable reg platform e = false) ∨
      (∃ g ∈ groups, ∃ e ∈ g.entities, e.platform = platform ∧
        resolvable reg platform e = false)) →
      ∃ msg, add_entities reg platform devices groups = Except.error msg) := by
  constructor
  · intro hd hg
    obtain ⟨ld, hld, hlend⟩ := add_entities_lists_ok reg platform
      (devices.map (fun d => d.entities))
      (by
        intro es hes e he hp
        rw [List.mem_map] at hes
        obtain ⟨d, hdm, rfl⟩ := hes
        exact hd d hdm e he hp)
    obtain ⟨lg, hlg, hleng⟩ := add_entities_lists_ok reg platform
      (groups.map (fun g => g.entities))
      (by
        intro es hes e he hp
        rw [List.mem_map] at hes
        obtain ⟨g, hgm, rfl⟩ := hes
        exact hg g hgm e he hp)
    refine ⟨ld ++ lg, ?_, ?_⟩
    · simp only [add_entities, hld, hlg]
      rfl
    · simp only [List.length_append, hlend, hleng, List.map_map]
      rfl
  · intro hbad
    rcases hbad with hdev | hgrp
    · obtain ⟨d, hd, e, he, hp, hr⟩ := hdev
      obtain ⟨msg, hmsg⟩ := add_entities_lists_err reg platform
        (devices.map (fun x => x.entities))
        ⟨d.entities, List.mem_map_of_mem _ hd, e, he, hp, hr⟩
      exact ⟨msg, by simp only [add_entities, hmsg]; rfl⟩
    · obtain ⟨g, hg, e, he, hp, hr⟩ := hgrp
      cases hdevs : add_entities_lists reg platform
          (devices.map (fun d => d.entities)) with
      | error m => exact ⟨m, by simp only [add_entities, hdevs]; rfl⟩
      | ok ld =>
        obtain ⟨msg, hmsg⟩ := add_entities_lists_err reg platform
          (groups.map (fun x => x.entities))
          ⟨g.entities, List.mem_map_of_mem _ hg, e, he, hp, hr⟩
        exact ⟨msg, by simp only [add_entities, hdevs, hmsg]; rfl⟩

/-- C3 witness: the amended theorem applied to a fully registered batch and to
the aborting batch. -/
theorem unregistered_class_aborts_batch_witness :
    (∃ l, add_entities c3_registry ("switch") [c3_good_device] [] = Except.ok l ∧
      l.length
        = ([c3_good_device].map (fun d => matching_count ("switch") d.entities)).sum
          + (([] : List GroupDispatchModel).map
              (fun g => matching_count ("switch") g.entities)).sum)
  ∧ (∃ msg, add_entities c3_registry ("switch") [c3_device] []
      = Except.error msg) :=
  ⟨(unregistered_class_aborts_batch c3_registry ("switch") [c3_good_device] []).1
      (by decide) (by decide),
   (unregistered_class_aborts_batch c3_registry ("switch") [c3_device] []).2
      (Or.inl (by decide))⟩

/-- C8: processing the same new-join device-fully-initialized notification
twice through the add-entities path yields the same host collection as
processing it once (a second construction request for an already-present
unique-id is a no-op), and a host collection holding at most one adapter per
unique-id keeps that property. -/
theorem device_join_dispatch_idempotent (reg : Registry) (platform : String)
    (host : List ConstructedAdapter) (event : DeviceFullyInitializedEvent) :
    add_entities_new_join reg platform
        (add_entities_new_join reg platform host event) event
      = add_entities_new_join reg platform host event
  ∧ (∀ u, uid_count host u ≤ 1 →
      uid_count (add_entities_new_join reg platform host event) u ≤ 1) := by
  constructor
  · by_cases hj : event.new_join = true
    · cases hres : add_entities reg platform [event.device] [] with
      | error m => simp [add_entities_new_join, hj, hres]
      | ok l => simp [add_entities_new_join, hj, hres, host_add_entities_idem]
    · simp [add_entities_new_join, hj]
  · intro u hu
    by_cases hj : event.new_join = true
    · cases hres : add_entities reg platform [event.device] [] with
      | error m => simpa [add_entities_new_join, hj, hres] using hu
      | ok l =>
        simp only [add_entities_new_join, hj, hres, if_true]
        exact uid_count_host_add_le_one l host u hu
    · simpa [add_entities_new_join, hj] using hu

/-- C8 witness: dedup preservation applied to an empty host collection and a
concrete new-join event. -/
theorem device_join_dispatch_idempotent_witness :
    uid_count ([] : List ConstructedAdapter) ("u-good") ≤ 1
  ∧ uid_count (add_entities_new_join c3_registry ("switch") [] c8_event)
      ("u-good") ≤ 1 :=
  ⟨by decide,
    (device_join_dispatch_idempotent c3_registry ("switch") [] c8_event).2
      ("u-good") (by decide)⟩
